import Mathlib

/-!
Shallow embedding of the "anieme" front-end (App.tsx, ImageStudio.tsx,
StoryboardGenerator.tsx, types.ts) and proofs about its specification.

The source is React/TypeScript.  We embed the component state as records,
each event handler as a pure state transformer, and each `await
ai.models.generateContent(...)` call as a query to an oracle
`Nat → AdapterResult` giving the i-th call's outcome (a returned inline
image, a response with no inline image part, or a thrown transport error).
Nondeterministic panel ids (`Date.toISOString` + `Math.random`) are
modelled by an id oracle `Nat → String` keyed by call index.  Every
`setState` of the storyboard list during a run is recorded as a published
snapshot, so ordering / monotonicity claims can be stated over the
snapshot trace.
-/

namespace Anieme

/-! ## JavaScript string primitives

The handlers use `String.prototype.trim`, `split('\n')` and `split('|')`.
We model them directly on the character list underlying a Lean string:
`jsTrim` strips leading/trailing whitespace, and `jsSplit sep` splits on
every occurrence of the separator (JS `split` is not "split on first"). -/

/-- The whitespace characters `String.prototype.trim` strips (ASCII part
plus NBSP and BOM; the scripts in question only contain ASCII). -/
def jsIsWhitespace (c : Char) : Bool :=
  (c == ' ') || (c == '\t') || (c == '\n') || (c == '\r') ||
  (c == '\x0b') || (c == '\x0c') || (c == ' ') || (c == '﻿')

/-- JS `s.trim()`. -/
def jsTrim (s : String) : String :=
  ⟨((s.data.dropWhile jsIsWhitespace).reverse.dropWhile jsIsWhitespace).reverse⟩

/-- Worker for `jsSplit`: `acc` holds the current segment, reversed. -/
def jsSplitAux (sep : Char) : List Char → List Char → List String
  | [], acc => [⟨acc.reverse⟩]
  | c :: cs, acc =>
    if c = sep then ⟨acc.reverse⟩ :: jsSplitAux sep cs []
    else jsSplitAux sep cs (c :: acc)

/-- JS `s.split(sep)` for a one-character separator: splits on every
occurrence; `"".split(sep) = [""]`; a trailing separator yields a trailing
empty segment. -/
def jsSplit (sep : Char) (s : String) : List String :=
  jsSplitAux sep s.data []

/-! ## Data model (types.ts) -/

/-- A browser `File`; the code only ever reads its `type` (MIME) field. -/
structure JSFile where
  type : String
deriving DecidableEq

/-- types.ts `UploadedImage`. -/
structure UploadedImage where
  file : JSFile
  base64 : String
deriving DecidableEq

/-- types.ts `CharacterReference` (`file` is absent for AI-generated
characters). -/
structure CharacterReference where
  base64 : String
  mimeType : String
  file : Option JSFile
deriving DecidableEq

/-- types.ts `StoryboardPanel`. -/
structure StoryboardPanel where
  id : String
  src : String
  prompt : String
deriving DecidableEq

/-- One part of a `generateContent` request: inline image data or text. -/
inductive ReqPart where
  | inlineData (data mimeType : String)
  | text (t : String)
deriving DecidableEq

/-- Outcome of one `ai.models.generateContent` call, as far as the callers
can observe it: a first inline-image part `(mimeType, data)`, a usable
response containing no inline-image part, or a thrown transport error whose
surfaced message is `message` (the code shows `e.message` for `Error`s). -/
inductive AdapterResult where
  | image (mimeType data : String)
  | noImage
  | throwErr (message : String)
deriving DecidableEq

/-- Does this call outcome throw (transport error)? -/
def AdapterResult.isThrow : AdapterResult → Bool
  | .throwErr _ => true
  | _ => false

end Anieme

namespace Anieme.ImageStudio

/-- Local state of the `ImageStudio` component (its `useState` hooks). -/
structure State where
  prompt : String
  inputImage : Option UploadedImage
  outputImage : Option String
  isLoading : Bool
  error : Option String
deriving DecidableEq

/-- Initial `useState` values of `ImageStudio`. -/
def init : State :=
  { prompt := "", inputImage := none, outputImage := none,
    isLoading := false, error := none }

/-- `handleImageUpload` (ImageStudio.tsx): set the input image, reset
output and error. -/
def handleImageUpload (image : UploadedImage) (s : State) : State :=
  { s with inputImage := some image, outputImage := none, error := none }

/-- `handleClearImage` (ImageStudio.tsx): only clears the input image. -/
def handleClearImage (s : State) : State :=
  { s with inputImage := none }

/-- `handleGenerate` (ImageStudio.tsx).  Returns the final state together
with the list of adapter requests issued (each a part list).  `res` is the
outcome of the single adapter call, if one is made. -/
def handleGenerate (s : State) (res : AdapterResult) :
    State × List (List ReqPart) :=
  if jsTrim s.prompt = "" then
    ({ s with error := some "Please enter a prompt." }, [])
  else
    let s1 : State := { s with isLoading := true, error := none, outputImage := none }
    let parts : List ReqPart :=
      (match s.inputImage with
       | some img => [ReqPart.inlineData img.base64 img.file.type]
       | none => []) ++ [ReqPart.text s.prompt]
    match res with
    | .image m d =>
        ({ s1 with outputImage := some ("data:" ++ m ++ ";base64," ++ d),
                   isLoading := false }, [parts])
    | .noImage =>
        ({ s1 with error := some "Image generation failed. The model did not return an image.",
                   isLoading := false }, [parts])
    | .throwErr msg =>
        ({ s1 with error := some msg, isLoading := false }, [parts])

end Anieme.ImageStudio

namespace Anieme.Storyboard

open Anieme

/-- `characterCreationMode` of `StoryboardGenerator`. -/
inductive CreationMode where
  | upload
  | describe
deriving DecidableEq

/-- Local state of the `StoryboardGenerator` component. -/
structure State where
  character : Option CharacterReference
  characterCreationMode : CreationMode
  characterDescription : String
  isCreatingCharacter : Bool
  script : String
  storyboard : List StoryboardPanel
  isLoading : Bool
  error : Option String
deriving DecidableEq

/-- Initial `useState` values of `StoryboardGenerator`. -/
def init : State :=
  { character := none, characterCreationMode := .upload,
    characterDescription := "", isCreatingCharacter := false,
    script := "", storyboard := [], isLoading := false, error := none }

/-- `handleImageUpload` (StoryboardGenerator.tsx): install the uploaded
character reference, clear the storyboard and the error. -/
def handleImageUpload (image : UploadedImage) (s : State) : State :=
  { s with
      character := some ⟨image.base64, image.file.type, some image.file⟩,
      storyboard := [], error := none }

/-- `handleClearCharacter` (StoryboardGenerator.tsx). -/
def handleClearCharacter (s : State) : State :=
  { s with character := none, storyboard := [], characterDescription := "" }

/-- The fixed template wrapped around the user's character description in
`handleCreateCharacter`. -/
def createCharacterPrompt (desc : String) : String :=
  "Create a character reference sheet for an anime character. The character is: "
    ++ desc ++
    ". The background should be a neutral gray. The character should be in a full-body standing pose, facing forward. High quality, clean line art, vibrant colors."

/-- `handleCreateCharacter` (StoryboardGenerator.tsx).  Returns the final
state and the adapter requests issued. -/
def handleCreateCharacter (s : State) (res : AdapterResult) :
    State × List (List ReqPart) :=
  if jsTrim s.characterDescription = "" then
    ({ s with error := some "Please describe the character you want to create." }, [])
  else
    let req : List ReqPart := [ReqPart.text (createCharacterPrompt s.characterDescription)]
    match res with
    | .image m d =>
        ({ s with isCreatingCharacter := false, error := none,
                  character := some ⟨d, m, none⟩, storyboard := [] }, [req])
    | .noImage =>
        ({ s with isCreatingCharacter := false,
                  error := some "The AI failed to generate a character. Please try again." }, [req])
    | .throwErr msg =>
        ({ s with isCreatingCharacter := false, error := some msg }, [req])

/-- `const [sceneDescription, textContent] = line.split('|').map(s => s.trim())`
followed by the `if (textContent)` truthiness test: the scene description is
the trimmed first segment; the caption is the trimmed second segment when it
exists and is nonempty (JS `""` is falsy); later segments are dropped by the
destructuring. -/
def parseLine (line : String) : String × Option String :=
  match (jsSplit '|' line).map jsTrim with
  | [] => ("", none)
  | [scene] => (scene, none)
  | scene :: text :: _ => (scene, if text = "" then none else some text)

/-- The composite prompt built for one script line (lines 160-164). -/
def buildFullPrompt (line : String) : String :=
  let base := "Create a dynamic anime panel in a modern style, ensuring the character's appearance is consistent with the provided reference image. The scene is: '"
    ++ (parseLine line).1 ++
    "'. Use interesting camera angles and cinematic composition."
  match (parseLine line).2 with
  | none => base
  | some t => base ++
      "\n\nIMPORTANT: Render the following text clearly inside the panel, using a stylish comic book font inside a speech bubble or caption box appropriate for the scene: \""
      ++ t ++ "\""

/-- The parts of the per-line `generateContent` request: character image
first, then the composite prompt (lines 166-177). -/
def storyboardRequest (ch : CharacterReference) (line : String) : List ReqPart :=
  [ReqPart.inlineData ch.base64 ch.mimeType, ReqPart.text (buildFullPrompt line)]

/-- The pending placeholder pushed before each call:
`{ id: loading-N, src: '', prompt: 'loading' }` where `N` is the length of
the published list at push time (line 156). -/
def pendingPanel (n : Nat) : StoryboardPanel :=
  { id := "loading-" ++ toString n, src := "", prompt := "loading" }

/-- The final panel recorded for a line whose call returned (lines
179-193): a completed panel on an inline image, a failed panel (sentinel
`src = "error"`) when no image part was returned, and nothing when the call
threw (the loop is then abandoned before pushing a panel). -/
def resultPanelOpt (id line : String) : AdapterResult → Option StoryboardPanel
  | .image m d => some ⟨id, "data:" ++ m ++ ";base64," ++ d, line⟩
  | .noImage => some ⟨id, "error", line⟩
  | .throwErr _ => none

/-- `script.trim().split('\n').filter(line => line.trim() !== '')`
(line 149). -/
def scriptLines (script : String) : List String :=
  (jsSplit '\n' (jsTrim script)).filter (fun l => jsTrim l != "")

/-- Observable outcome of the per-line loop: the storyboard values
published by `setStoryboard` (in order), the adapter requests issued (in
order), the final published storyboard, and the error captured by the
outer `catch` (if a call threw). -/
structure RunAcc where
  snapshots : List (List StoryboardPanel)
  requests : List (List ReqPart)
  board : List StoryboardPanel
  error : Option String
deriving DecidableEq

/-- The `for (const line of scriptLines)` loop (lines 155-195).
`idx` is the index of the next adapter call, `newPanels` the local
accumulator array, `board` the currently published storyboard (the `prev`
seen by the functional `setStoryboard`).  Each iteration publishes the
placeholder, issues one call, and on a non-thrown outcome publishes
`[...newPanels]`; a thrown call aborts the loop, which the caller's `catch`
turns into the recorded error. -/
def runLoop (ch : CharacterReference) (o : Nat → AdapterResult) (g : Nat → String) :
    List String → Nat → List StoryboardPanel → List StoryboardPanel → RunAcc
  | [], _, _, board => ⟨[], [], board, none⟩
  | line :: rest, idx, newPanels, board =>
    let board1 := board ++ [pendingPanel board.length]
    let req := storyboardRequest ch line
    match o idx with
    | .throwErr msg => ⟨[board1], [req], board1, some msg⟩
    | .image m d =>
        let np2 := newPanels ++ [⟨g idx, "data:" ++ m ++ ";base64," ++ d, line⟩]
        let r := runLoop ch o g rest (idx + 1) np2 np2
        ⟨board1 :: np2 :: r.snapshots, req :: r.requests, r.board, r.error⟩
    | .noImage =>
        let np2 := newPanels ++ [⟨g idx, "error", line⟩]
        let r := runLoop ch o g rest (idx + 1) np2 np2
        ⟨board1 :: np2 :: r.snapshots, req :: r.requests, r.board, r.error⟩

/-- Observable outcome of `handleGenerate`: published storyboard snapshots
(including the initial `setStoryboard([])`), issued requests, final state. -/
structure GenOutcome where
  snapshots : List (List StoryboardPanel)
  requests : List (List ReqPart)
  state : State
deriving DecidableEq

/-- `handleGenerate` (StoryboardGenerator.tsx lines 135-202).  Validation
first (missing character, then blank script); otherwise clear the board,
run the loop, and in `finally` clear the busy flag; the final error is the
one captured by `catch` (none when no call threw). -/
def handleGenerate (s : State) (o : Nat → AdapterResult) (g : Nat → String) :
    GenOutcome :=
  match s.character with
  | none => ⟨[], [], { s with error := some "Please upload or create a character reference image." }⟩
  | some ch =>
    if jsTrim s.script = "" then
      ⟨[], [], { s with error := some "Please enter a script for the storyboard." }⟩
    else
      let r := runLoop ch o g (scriptLines s.script) 0 [] []
      ⟨[] :: r.snapshots, r.requests,
        { s with storyboard := r.board, isLoading := false, error := r.error }⟩

/-- How a rendered panel is displayed (StoryboardGenerator.tsx 319-337). -/
inductive PanelStatus where
  | pending
  | failed
  | completed
deriving DecidableEq

/-- The panel-tile render logic: `panel.prompt === 'loading'` shows the
spinner, else `panel.src === 'error'` shows the failure tile, else the
image (lines 322-333). -/
def panelStatus (p : StoryboardPanel) : PanelStatus :=
  if p.prompt = "loading" then .pending
  else if p.src = "error" then .failed
  else .completed

/-- The lengths of the storyboard values published by the loop when it
starts with `k` published panels and has `n` lines left to process: each
line publishes the placeholder push and then the finalized list, both one
longer than what the previous line left. -/
def lengthsFrom : Nat → Nat → List Nat
  | _, 0 => []
  | k, n + 1 => (k + 1) :: (k + 1) :: lengthsFrom (k + 1) n

end Anieme.Storyboard

namespace Anieme.App

open Anieme

/-- `type Tool = 'imageStudio' | 'storyboard'` (App.tsx). -/
inductive Tool where
  | imageStudio
  | storyboard
deriving DecidableEq

/-- State of the `App` component plus the mounted children.  App.tsx
renders `{activeTool === 'imageStudio' && <ImageStudio />}` and
`{activeTool === 'storyboard' && <StoryboardGenerator />}` (lines 62-65):
exactly the active tool's component is mounted; React destroys the
`useState` state of an unmounted component, so a workflow's state exists
(`some _`) only while it is the active tool. -/
structure AppState where
  activeTool : Tool
  imageStudio : Option ImageStudio.State
  storyboard : Option Storyboard.State
deriving DecidableEq

/-- One render/reconciliation pass of App.tsx lines 62-65: the active
tool's component stays mounted (keeping its state) or is freshly mounted
with its initial `useState` values; the other component is unmounted and
its state destroyed. -/
def reconcile (s : AppState) : AppState :=
  { activeTool := s.activeTool,
    imageStudio :=
      if s.activeTool = Tool.imageStudio then some (s.imageStudio.getD ImageStudio.init)
      else none,
    storyboard :=
      if s.activeTool = Tool.storyboard then some (s.storyboard.getD Storyboard.init)
      else none }

/-- `setActiveTool` followed by the re-render it triggers. -/
def setActiveTool (t : Tool) (s : AppState) : AppState :=
  reconcile { s with activeTool := t }

end Anieme.App

namespace Anieme

/-! ## Lemmas about the string model -/

/-- A string trims to empty exactly when all its characters are
whitespace. -/
theorem jsTrim_eq_empty_iff (s : String) :
    jsTrim s = "" ↔ ∀ c ∈ s.data, jsIsWhitespace c := by
  have hmk : ∀ l : List Char, ((⟨l⟩ : String) = "") ↔ l = [] := by
    intro l
    constructor
    · intro h
      have := congrArg String.data h
      simpa using this
    · intro h
      rw [h]
  unfold jsTrim
  rw [hmk, List.reverse_eq_nil_iff, List.dropWhile_eq_nil_iff]
  constructor
  · intro h c hc
    have hsplit := List.takeWhile_append_dropWhile (p := jsIsWhitespace) (l := s.data)
    rw [← hsplit] at hc
    rcases List.mem_append.mp hc with h1 | h1
    · exact List.mem_takeWhile_imp h1
    · exact h _ (List.mem_reverse.mpr h1)
  · intro h c hc
    exact h c ((List.dropWhile_sublist jsIsWhitespace).mem (List.mem_reverse.mp hc))

/-- Every character fed to `jsSplitAux` is either the separator or lands
inside one of the produced segments. -/
theorem jsSplitAux_covers (sep : Char) :
    ∀ (cs acc : List Char) (c : Char), c ∈ cs ∨ c ∈ acc →
      c = sep ∨ ∃ l ∈ jsSplitAux sep cs acc, c ∈ l.data := by
  intro cs
  induction cs with
  | nil =>
    intro acc c h
    right
    refine ⟨⟨acc.reverse⟩, by simp [jsSplitAux], ?_⟩
    rcases h with h | h
    · simp at h
    · simpa using List.mem_reverse.mpr h
  | cons c' cs' ih =>
    intro acc c h
    have e1 : jsSplitAux sep (c' :: cs') acc =
        if c' = sep then (⟨acc.reverse⟩ : String) :: jsSplitAux sep cs' []
        else jsSplitAux sep cs' (c' :: acc) := rfl
    by_cases hsep : c' = sep
    · rw [e1, if_pos hsep]
      rcases h with h | h
      · rcases List.mem_cons.mp h with rfl | h2
        · exact Or.inl hsep
        · rcases ih [] c (Or.inl h2) with h3 | ⟨l, hl, hcl⟩
          · exact Or.inl h3
          · exact Or.inr ⟨l, List.mem_cons_of_mem _ hl, hcl⟩
      · exact Or.inr ⟨⟨acc.reverse⟩, List.mem_cons_self _ _,
          by simpa using List.mem_reverse.mpr h⟩
    · rw [e1, if_neg hsep]
      rcases h with h | h
      · rcases List.mem_cons.mp h with rfl | h2
        · exact ih (c :: acc) c (Or.inr (List.mem_cons_self _ _))
        · exact ih (c' :: acc) c (Or.inl h2)
      · exact ih (c' :: acc) c (Or.inr (List.mem_cons_of_mem _ h))

/-- If every line of a script is blank after trimming, the whole script
trims to the empty string (so the blank-script validation guard fires). -/
theorem jsTrim_eq_empty_of_lines_blank (s : String)
    (h : ∀ l ∈ jsSplit '\n' s, jsTrim l = "") : jsTrim s = "" := by
  rw [jsTrim_eq_empty_iff]
  intro c hc
  rcases jsSplitAux_covers '\n' s.data [] c (Or.inl hc) with rfl | ⟨l, hl, hcl⟩
  · decide
  · exact (jsTrim_eq_empty_iff l).mp (h l hl) c hcl

end Anieme

namespace Anieme.Storyboard

open Anieme

/-! ## Lemmas about the storyboard run loop -/

/-- `lengthsFrom` never decreases and never jumps by more than one. -/
theorem lengthsFrom_chain (n : Nat) :
    ∀ k, List.Chain' (fun a b => a ≤ b ∧ b ≤ a + 1) (k :: lengthsFrom k n) := by
  induction n with
  | zero =>
    intro k
    simp [lengthsFrom]
  | succ n ih =>
    intro k
    have e : lengthsFrom k (n + 1) = (k + 1) :: (k + 1) :: lengthsFrom (k + 1) n := rfl
    rw [e]
    exact List.chain'_cons.mpr ⟨⟨Nat.le_succ k, Nat.le_refl _⟩,
      List.chain'_cons.mpr ⟨⟨Nat.le_refl _, Nat.le_succ _⟩, ih (k + 1)⟩⟩

/-- Unfolding of one loop iteration whose adapter call throws. -/
theorem runLoop_cons_throw (ch : CharacterReference) (o : Nat → AdapterResult)
    (g : Nat → String) (line : String) (rest : List String) (idx : Nat)
    (np b : List StoryboardPanel) (msg : String) (hO : o idx = .throwErr msg) :
    runLoop ch o g (line :: rest) idx np b =
      ⟨[b ++ [pendingPanel b.length]], [storyboardRequest ch line],
        b ++ [pendingPanel b.length], some msg⟩ := by
  simp [runLoop, hO]

/-- Unfolding of one loop iteration whose adapter call returns (with or
without an image): some final panel `p` is appended to the accumulator and
the loop recurses on the remaining lines. -/
theorem runLoop_cons_notThrow (ch : CharacterReference) (o : Nat → AdapterResult)
    (g : Nat → String) (line : String) (rest : List String) (idx : Nat)
    (np b : List StoryboardPanel) (h0 : (o idx).isThrow = false) :
    ∃ p, resultPanelOpt (g idx) line (o idx) = some p ∧
      runLoop ch o g (line :: rest) idx np b =
        ⟨(b ++ [pendingPanel b.length]) :: (np ++ [p]) ::
            (runLoop ch o g rest (idx + 1) (np ++ [p]) (np ++ [p])).snapshots,
          storyboardRequest ch line ::
            (runLoop ch o g rest (idx + 1) (np ++ [p]) (np ++ [p])).requests,
          (runLoop ch o g rest (idx + 1) (np ++ [p]) (np ++ [p])).board,
          (runLoop ch o g rest (idx + 1) (np ++ [p]) (np ++ [p])).error⟩ := by
  cases hO : o idx with
  | throwErr m =>
    rw [hO] at h0
    simp [AdapterResult.isThrow] at h0
  | image m d =>
    refine ⟨⟨g idx, "data:" ++ m ++ ";base64," ++ d, line⟩, by simp [resultPanelOpt], ?_⟩
    simp [runLoop, hO]
  | noImage =>
    refine ⟨⟨g idx, "error", line⟩, by simp [resultPanelOpt], ?_⟩
    simp [runLoop, hO]

/-- The loop only ever appends to the accumulated panel array: the final
published board extends the panels accumulated so far. -/
theorem runLoop_board_extends (ch : CharacterReference) (o : Nat → AdapterResult)
    (g : Nat → String) :
    ∀ (lines : List String) (idx : Nat) (np : List StoryboardPanel),
      ∃ t, (runLoop ch o g lines idx np np).board = np ++ t := by
  intro lines
  induction lines with
  | nil =>
    intro idx np
    exact ⟨[], by simp [runLoop]⟩
  | cons line rest ih =>
    intro idx np
    cases hO : (o idx).isThrow with
    | true =>
      cases hT : o idx with
      | throwErr msg =>
        exact ⟨[pendingPanel np.length], by rw [runLoop_cons_throw ch o g line rest idx np np msg hT]⟩
      | image m d => rw [hT] at hO; simp [AdapterResult.isThrow] at hO
      | noImage => rw [hT] at hO; simp [AdapterResult.isThrow] at hO
    | false =>
      obtain ⟨p, hp, hstep⟩ := runLoop_cons_notThrow ch o g line rest idx np np hO
      obtain ⟨t, ht⟩ := ih (idx + 1) (np ++ [p])
      refine ⟨p :: t, ?_⟩
      rw [hstep]
      simpa using ht

/-- A loop with at least one line left issues at least one request. -/
theorem runLoop_requests_pos (ch : CharacterReference) (o : Nat → AdapterResult)
    (g : Nat → String) (line : String) (rest : List String) (idx : Nat)
    (np b : List StoryboardPanel) :
    1 ≤ (runLoop ch o g (line :: rest) idx np b).requests.length := by
  cases hO : o idx <;> simp [runLoop, hO]


/-- Full characterization of a loop run in which no adapter call throws:
one request per line in script order, no recorded error, one finalized
panel per line at its own position (decided by that call's outcome), and
the lengths of the published snapshots. -/
theorem runLoop_noThrow (ch : CharacterReference) (o : Nat → AdapterResult)
    (g : Nat → String) :
    ∀ (lines : List String) (idx : Nat) (np : List StoryboardPanel),
      (∀ i, i < lines.length → (o (idx + i)).isThrow = false) →
      (runLoop ch o g lines idx np np).requests = lines.map (storyboardRequest ch)
      ∧ (runLoop ch o g lines idx np np).error = none
      ∧ (runLoop ch o g lines idx np np).board.length = np.length + lines.length
      ∧ (∀ j, j < lines.length →
          (runLoop ch o g lines idx np np).board[np.length + j]? =
            resultPanelOpt (g (idx + j)) (lines.getD j "") (o (idx + j)))
      ∧ (runLoop ch o g lines idx np np).snapshots.map List.length =
          lengthsFrom np.length lines.length := by
  intro lines
  induction lines with
  | nil =>
    intro idx np hnt
    simp [runLoop, lengthsFrom]
  | cons line rest ih =>
    intro idx np hnt
    have h0 : (o idx).isThrow = false := by
      simpa using hnt 0 (by simp)
    have hsh : ∀ i, i < rest.length → (o (idx + 1 + i)).isThrow = false := by
      intro i hi
      have h := hnt (i + 1) (by simp only [List.length_cons]; omega)
      rwa [show idx + (i + 1) = idx + 1 + i from by omega] at h
    obtain ⟨p, hp, hstep⟩ := runLoop_cons_notThrow ch o g line rest idx np np h0
    obtain ⟨hreq, herr, hlen, hidx, hsnap⟩ := ih (idx + 1) (np ++ [p]) hsh
    obtain ⟨t, ht⟩ := runLoop_board_extends ch o g rest (idx + 1) (np ++ [p])
    rw [hstep]
    refine ⟨by simpa using hreq, by simpa using herr, ?_, ?_, ?_⟩
    · show (runLoop ch o g rest (idx + 1) (np ++ [p]) (np ++ [p])).board.length = _
      rw [hlen]
      simp only [List.length_append, List.length_cons, List.length_nil]
      omega
    · intro j hj
      cases j with
      | zero =>
        have hb : (runLoop ch o g rest (idx + 1) (np ++ [p]) (np ++ [p])).board[np.length]? =
            some p := by
          rw [ht, List.append_assoc, List.getElem?_append_right (Nat.le_refl np.length)]
          simp
        simpa [hp] using hb
      | succ j' =>
        have hj' : j' < rest.length := by
          simp only [List.length_cons] at hj
          omega
        have h := hidx j' hj'
        rw [show np.length + (j' + 1) = (np ++ [p]).length + j' from by
              simp only [List.length_append, List.length_singleton]; omega,
            show idx + (j' + 1) = idx + 1 + j' from by omega]
        simpa using h
    · show (_ :: _ :: (runLoop ch o g rest (idx + 1) (np ++ [p]) (np ++ [p])).snapshots).map
          List.length = _
      simp only [List.map_cons, hsnap]
      simp [lengthsFrom, List.length_append]

/-- Characterization of a run whose call for line `m` (0-based) throws a
transport error while no earlier call throws: the loop stops after issuing
`m + 1` requests, the thrown message is recorded, and the published board
holds the `m` finalized panels followed by the still-pending placeholder
for line `m` — nothing ever removes that placeholder. -/
theorem runLoop_throwAt (ch : CharacterReference) (o : Nat → AdapterResult)
    (g : Nat → String) (msg : String) :
    ∀ (m : Nat) (lines : List String) (idx : Nat) (np : List StoryboardPanel),
      m < lines.length →
      (∀ i, i < m → (o (idx + i)).isThrow = false) →
      o (idx + m) = .throwErr msg →
      (runLoop ch o g lines idx np np).error = some msg
      ∧ (runLoop ch o g lines idx np np).requests =
          (lines.take (m + 1)).map (storyboardRequest ch)
      ∧ (runLoop ch o g lines idx np np).board.length = np.length + m + 1
      ∧ (∀ j, j < m →
          (runLoop ch o g lines idx np np).board[np.length + j]? =
            resultPanelOpt (g (idx + j)) (lines.getD j "") (o (idx + j)))
      ∧ (runLoop ch o g lines idx np np).board[np.length + m]? =
          some (pendingPanel (np.length + m)) := by
  intro m
  induction m with
  | zero =>
    intro lines idx np hm hpre hthrow
    cases lines with
    | nil => simp at hm
    | cons line rest =>
      rw [Nat.add_zero] at hthrow
      rw [runLoop_cons_throw ch o g line rest idx np np msg hthrow]
      refine ⟨rfl, by simp, by simp, ?_, ?_⟩
      · intro j hj
        exact absurd hj (Nat.not_lt_zero j)
      · show (np ++ [pendingPanel np.length])[np.length + 0]? = _
        simp
  | succ m ih =>
    intro lines idx np hm hpre hthrow
    cases lines with
    | nil => simp at hm
    | cons line rest =>
      have h0 : (o idx).isThrow = false := by simpa using hpre 0 (by omega)
      obtain ⟨p, hp, hstep⟩ := runLoop_cons_notThrow ch o g line rest idx np np h0
      have hpre2 : ∀ i, i < m → (o (idx + 1 + i)).isThrow = false := by
        intro i hi
        have h := hpre (i + 1) (by omega)
        rwa [show idx + (i + 1) = idx + 1 + i from by omega] at h
      have hthrow2 : o (idx + 1 + m) = .throwErr msg := by
        rwa [show idx + (m + 1) = idx + 1 + m from by omega] at hthrow
      obtain ⟨herr, hreq, hlen, hidx, hlast⟩ :=
        ih rest (idx + 1) (np ++ [p]) (by simpa using hm) hpre2 hthrow2
      obtain ⟨t, ht⟩ := runLoop_board_extends ch o g rest (idx + 1) (np ++ [p])
      rw [hstep]
      refine ⟨by simpa using herr, ?_, ?_, ?_, ?_⟩
      · show _ :: (runLoop ch o g rest (idx + 1) (np ++ [p]) (np ++ [p])).requests = _
        rw [hreq]
        simp [List.take_succ_cons]
      · show (runLoop ch o g rest (idx + 1) (np ++ [p]) (np ++ [p])).board.length = _
        rw [hlen]
        simp only [List.length_append, List.length_cons, List.length_nil]
        omega
      · intro j hj
        cases j with
        | zero =>
          have hb : (runLoop ch o g rest (idx + 1) (np ++ [p]) (np ++ [p])).board[np.length]? =
              some p := by
            rw [ht, List.append_assoc, List.getElem?_append_right (Nat.le_refl np.length)]
            simp
          simpa [hp] using hb
        | succ j' =>
          have h := hidx j' (by omega)
          rw [show np.length + (j' + 1) = (np ++ [p]).length + j' from by
                simp only [List.length_append, List.length_cons, List.length_nil]; omega,
              show idx + (j' + 1) = idx + 1 + j' from by omega]
          simpa using h
      · rw [show np.length + (m + 1) = (np ++ [p]).length + m from by
              simp only [List.length_append, List.length_cons, List.length_nil]; omega]
        exact hlast

/-- If no call up to and including line `m` throws, then line `m`'s panel
is finalized at position `m` of the final board (decided by its own call's
outcome — failed-but-recorded when the call returned no image), and when a
line `m + 1` exists its call is still issued. -/
theorem runLoop_settledAt (ch : CharacterReference) (o : Nat → AdapterResult)
    (g : Nat → String) :
    ∀ (m : Nat) (lines : List String) (idx : Nat) (np : List StoryboardPanel),
      m < lines.length →
      (∀ i, i ≤ m → (o (idx + i)).isThrow = false) →
      (runLoop ch o g lines idx np np).board[np.length + m]? =
        resultPanelOpt (g (idx + m)) (lines.getD m "") (o (idx + m))
      ∧ (m + 1 < lines.length →
          m + 2 ≤ (runLoop ch o g lines idx np np).requests.length) := by
  intro m
  induction m with
  | zero =>
    intro lines idx np hm hpre
    cases lines with
    | nil => simp at hm
    | cons line rest =>
      have h0 : (o idx).isThrow = false := by simpa using hpre 0 (Nat.le_refl 0)
      obtain ⟨p, hp, hstep⟩ := runLoop_cons_notThrow ch o g line rest idx np np h0
      obtain ⟨t, ht⟩ := runLoop_board_extends ch o g rest (idx + 1) (np ++ [p])
      rw [hstep]
      constructor
      · have hb : (runLoop ch o g rest (idx + 1) (np ++ [p]) (np ++ [p])).board[np.length]? =
            some p := by
          rw [ht, List.append_assoc, List.getElem?_append_right (Nat.le_refl np.length)]
          simp
        simpa [hp] using hb
      · intro hlt
        cases rest with
        | nil => simp at hlt
        | cons line2 rest2 =>
          have hpos := runLoop_requests_pos ch o g line2 rest2 (idx + 1)
            (np ++ [p]) (np ++ [p])
          show 0 + 2 ≤ (_ :: (runLoop ch o g (line2 :: rest2) (idx + 1)
            (np ++ [p]) (np ++ [p])).requests).length
          simp only [List.length_cons]
          omega
  | succ m ih =>
    intro lines idx np hm hpre
    cases lines with
    | nil => simp at hm
    | cons line rest =>
      have h0 : (o idx).isThrow = false := by simpa using hpre 0 (by omega)
      obtain ⟨p, hp, hstep⟩ := runLoop_cons_notThrow ch o g line rest idx np np h0
      have hpre2 : ∀ i, i ≤ m → (o (idx + 1 + i)).isThrow = false := by
        intro i hi
        have h := hpre (i + 1) (by omega)
        rwa [show idx + (i + 1) = idx + 1 + i from by omega] at h
      obtain ⟨hset, hmore⟩ := ih rest (idx + 1) (np ++ [p]) (by simpa using hm) hpre2
      rw [hstep]
      constructor
      · rw [show np.length + (m + 1) = (np ++ [p]).length + m from by
              simp only [List.length_append, List.length_cons, List.length_nil]; omega,
            show idx + (m + 1) = idx + 1 + m from by omega]
        simpa using hset
      · intro hlt
        have h2 := hmore (by simpa using hlt)
        show m + 1 + 2 ≤ (_ :: (runLoop ch o g rest (idx + 1)
          (np ++ [p]) (np ++ [p])).requests).length
        simp only [List.length_cons]
        omega

/-- Unfolding of `handleGenerate` once both validation guards pass. -/
theorem handleGenerate_run (s : State) (o : Nat → AdapterResult) (g : Nat → String)
    (ch : CharacterReference) (h1 : s.character = some ch)
    (h2 : jsTrim s.script ≠ "") :
    handleGenerate s o g =
      ⟨[] :: (runLoop ch o g (scriptLines s.script) 0 [] []).snapshots,
        (runLoop ch o g (scriptLines s.script) 0 [] []).requests,
        { s with storyboard := (runLoop ch o g (scriptLines s.script) 0 [] []).board,
                 isLoading := false,
                 error := (runLoop ch o g (scriptLines s.script) 0 [] []).error }⟩ := by
  simp [handleGenerate, h1, h2]

/-! ## Claim theorems -/

/-- C1: for every storyboard run started with an active character
reference and a script with at least one non-blank line, in which no
adapter call throws, `handleGenerate` issues exactly one adapter call per
non-blank script line, strictly sequentially in script order (the request
list is exactly the per-line requests in order); the published panel-list
lengths are `0, 1, 1, 2, 2, …, N, N` — monotone and never skipping an
index — and when the run completes the panel count equals `N`, with no
error and the busy flag cleared. -/
theorem storyboard_run_sequential_and_complete
    (s : State) (o : Nat → AdapterResult) (g : Nat → String)
    (ch : CharacterReference) (h1 : s.character = some ch)
    (h2 : jsTrim s.script ≠ "")
    (hnt : ∀ i, i < (scriptLines s.script).length → (o i).isThrow = false) :
    (handleGenerate s o g).requests =
      (scriptLines s.script).map (storyboardRequest ch)
    ∧ (handleGenerate s o g).state.storyboard.length = (scriptLines s.script).length
    ∧ (handleGenerate s o g).state.error = none
    ∧ (handleGenerate s o g).state.isLoading = false
    ∧ (handleGenerate s o g).snapshots.map List.length =
        0 :: lengthsFrom 0 (scriptLines s.script).length
    ∧ List.Chain' (fun a b => a ≤ b ∧ b ≤ a + 1)
        ((handleGenerate s o g).snapshots.map List.length) := by
  have hnt0 : ∀ i, i < (scriptLines s.script).length → (o (0 + i)).isThrow = false := by
    intro i hi
    simpa using hnt i hi
  obtain ⟨hreq, herr, hlen, hidx, hsnap⟩ :=
    runLoop_noThrow ch o g (scriptLines s.script) 0 [] hnt0
  simp only [List.length_nil, Nat.zero_add] at hlen hsnap
  rw [handleGenerate_run s o g ch h1 h2]
  dsimp only
  have hmap : (([] : List StoryboardPanel) ::
        (runLoop ch o g (scriptLines s.script) 0 [] []).snapshots).map List.length =
      0 :: lengthsFrom 0 (scriptLines s.script).length := by
    simp only [List.map_cons, List.length_nil]
    rw [hsnap]
  refine ⟨hreq, hlen, herr, rfl, hmap, ?_⟩
  rw [hmap]
  exact lengthsFrom_chain _ 0

/-- C1 witness: a concrete two-line run with an always-successful adapter
satisfies the hypotheses and the conclusion of
`storyboard_run_sequential_and_complete`. -/
theorem storyboard_run_sequential_and_complete_witness :
    (jsTrim ("a\nb | hi" : String) ≠ ""
      ∧ (∀ i, i < (scriptLines "a\nb | hi").length →
          ((fun _ => AdapterResult.image "image/png" "xyz") i).isThrow = false))
    ∧ ((handleGenerate
          { init with character := some ⟨"c64", "image/png", none⟩, script := "a\nb | hi" }
          (fun _ => AdapterResult.image "image/png" "xyz")
          (fun n => "id-" ++ toString n)).requests =
        (scriptLines "a\nb | hi").map (storyboardRequest ⟨"c64", "image/png", none⟩)
      ∧ (handleGenerate
          { init with character := some ⟨"c64", "image/png", none⟩, script := "a\nb | hi" }
          (fun _ => AdapterResult.image "image/png" "xyz")
          (fun n => "id-" ++ toString n)).state.storyboard.length =
            (scriptLines "a\nb | hi").length
      ∧ (handleGenerate
          { init with character := some ⟨"c64", "image/png", none⟩, script := "a\nb | hi" }
          (fun _ => AdapterResult.image "image/png" "xyz")
          (fun n => "id-" ++ toString n)).state.error = none
      ∧ (handleGenerate
          { init with character := some ⟨"c64", "image/png", none⟩, script := "a\nb | hi" }
          (fun _ => AdapterResult.image "image/png" "xyz")
          (fun n => "id-" ++ toString n)).state.isLoading = false
      ∧ (handleGenerate
          { init with character := some ⟨"c64", "image/png", none⟩, script := "a\nb | hi" }
          (fun _ => AdapterResult.image "image/png" "xyz")
          (fun n => "id-" ++ toString n)).snapshots.map List.length =
            0 :: lengthsFrom 0 (scriptLines "a\nb | hi").length
      ∧ List.Chain' (fun a b => a ≤ b ∧ b ≤ a + 1)
          ((handleGenerate
            { init with character := some ⟨"c64", "image/png", none⟩, script := "a\nb | hi" }
            (fun _ => AdapterResult.image "image/png" "xyz")
            (fun n => "id-" ++ toString n)).snapshots.map List.length)) :=
  ⟨⟨by decide, by decide⟩,
    storyboard_run_sequential_and_complete _ _ _ _ rfl (by decide) (by decide)⟩

/-- C2 counterexample: with a two-line script `"a\nb"` and a transport
error thrown on line 0's call, the published list keeps the pending
placeholder at position 0 (src `""`, label `"loading"`, not a failed panel
labelled `"a"`), and only one request is issued although a second line
exists — so a transport error does NOT yield a failed panel nor let the
run continue, contradicting the claim as stated. -/
theorem storyboard_transport_error_counterexample :
    (scriptLines "a\nb").length = 2
    ∧ (handleGenerate
        { init with character := some ⟨"c64", "image/png", none⟩, script := "a\nb" }
        (fun _ => AdapterResult.throwErr "network down")
        (fun n => "id-" ++ toString n)).requests.length = 1
    ∧ (handleGenerate
        { init with character := some ⟨"c64", "image/png", none⟩, script := "a\nb" }
        (fun _ => AdapterResult.throwErr "network down")
        (fun n => "id-" ++ toString n)).state.storyboard.map StoryboardPanel.src = [""]
    ∧ (handleGenerate
        { init with character := some ⟨"c64", "image/png", none⟩, script := "a\nb" }
        (fun _ => AdapterResult.throwErr "network down")
        (fun n => "id-" ++ toString n)).state.storyboard.map StoryboardPanel.prompt =
          ["loading"] := by
  decide

/-- C2 (amended): if line `k`'s adapter call returns without an inline
image (the adapter-level "no image returned" extraction failure) and no
earlier call threw, the placeholder at position `k` is replaced by a
failed panel (sentinel `src = "error"`) whose label equals the original
raw line text, the run is not aborted, and — when a line `k+1` exists —
its call is still issued.  (A thrown transport error instead aborts the
run; see the counterexample.) -/
theorem storyboard_extraction_failure_continues
    (s : State) (o : Nat → AdapterResult) (g : Nat → String)
    (ch : CharacterReference) (k : Nat)
    (h1 : s.character = some ch) (h2 : jsTrim s.script ≠ "")
    (hk : k < (scriptLines s.script).length)
    (hpre : ∀ i, i < k → (o i).isThrow = false)
    (hfail : o k = .noImage) :
    (handleGenerate s o g).state.storyboard[k]? =
      some ⟨g k, "error", (scriptLines s.script).getD k ""⟩
    ∧ (k + 1 < (scriptLines s.script).length →
        k + 2 ≤ (handleGenerate s o g).requests.length) := by
  have hpre2 : ∀ i, i ≤ k → (o (0 + i)).isThrow = false := by
    intro i hi
    rcases Nat.lt_or_eq_of_le hi with hlt | hEq
    · simpa using hpre i hlt
    · subst hEq
      simp [Nat.zero_add, hfail, AdapterResult.isThrow]
  obtain ⟨hset, hmore⟩ := runLoop_settledAt ch o g k (scriptLines s.script) 0 [] hk hpre2
  simp only [List.length_nil, Nat.zero_add, hfail, resultPanelOpt] at hset hmore
  rw [handleGenerate_run s o g ch h1 h2]
  dsimp only
  exact ⟨hset, hmore⟩

/-- C2 witness: line 0 of `"a\nb"` suffers an extraction failure; its
panel is the failed sentinel labelled `"a"`, and line 1's call is still
issued. -/
theorem storyboard_extraction_failure_continues_witness :
    (jsTrim ("a\nb" : String) ≠ ""
      ∧ 0 < (scriptLines "a\nb").length
      ∧ (fun i => if i = 0 then AdapterResult.noImage
          else AdapterResult.image "image/png" "zz") 0 = AdapterResult.noImage)
    ∧ ((handleGenerate
          { init with character := some ⟨"c64", "image/png", none⟩, script := "a\nb" }
          (fun i => if i = 0 then AdapterResult.noImage
            else AdapterResult.image "image/png" "zz")
          (fun n => "id-" ++ toString n)).state.storyboard[0]? =
        some ⟨"id-" ++ toString 0, "error", (scriptLines "a\nb").getD 0 ""⟩
      ∧ (0 + 1 < (scriptLines "a\nb").length →
          0 + 2 ≤ (handleGenerate
            { init with character := some ⟨"c64", "image/png", none⟩, script := "a\nb" }
            (fun i => if i = 0 then AdapterResult.noImage
              else AdapterResult.image "image/png" "zz")
            (fun n => "id-" ++ toString n)).requests.length)) :=
  ⟨⟨by decide, by decide, by decide⟩,
    storyboard_extraction_failure_continues _ _ _ _ 0 rfl (by decide) (by decide)
      (by decide) (by decide)⟩

/-- C3 counterexample: with script `"x\ny"`, a successful call for line 0
and a transport error thrown on line 1's call, the run stops and the error
is surfaced — but the published list has length 2, not 1: the pending
placeholder pushed for line 1 (label `"loading"`) is still there,
contradicting the claim's "no pending placeholder remains". -/
theorem storyboard_abort_placeholder_counterexample :
    (handleGenerate
        { init with character := some ⟨"c64", "image/png", none⟩, script := "x\ny" }
        (fun i => if i = 0 then AdapterResult.image "image/png" "img0"
          else AdapterResult.throwErr "net down")
        (fun n => "id-" ++ toString n)).state.error = some "net down"
    ∧ (handleGenerate
        { init with character := some ⟨"c64", "image/png", none⟩, script := "x\ny" }
        (fun i => if i = 0 then AdapterResult.image "image/png" "img0"
          else AdapterResult.throwErr "net down")
        (fun n => "id-" ++ toString n)).state.storyboard.length = 2
    ∧ (handleGenerate
        { init with character := some ⟨"c64", "image/png", none⟩, script := "x\ny" }
        (fun i => if i = 0 then AdapterResult.image "image/png" "img0"
          else AdapterResult.throwErr "net down")
        (fun n => "id-" ++ toString n)).state.storyboard.map StoryboardPanel.prompt =
      ["x", "loading"] := by
  decide

/-- C3 (amended): if line `k`'s adapter call throws a transport error and
no earlier call threw, the run stops early after `k + 1` requests, the
thrown message is surfaced, the busy flag is cleared, and the published
panel list holds the finalized panels for lines `0 … k-1` followed by the
still-pending placeholder for line `k` (which is never removed). -/
theorem storyboard_transport_abort
    (s : State) (o : Nat → AdapterResult) (g : Nat → String)
    (ch : CharacterReference) (k : Nat) (msg : String)
    (h1 : s.character = some ch) (h2 : jsTrim s.script ≠ "")
    (hk : k < (scriptLines s.script).length)
    (hpre : ∀ i, i < k → (o i).isThrow = false)
    (hthrow : o k = .throwErr msg) :
    (handleGenerate s o g).state.error = some msg
    ∧ (handleGenerate s o g).state.isLoading = false
    ∧ (handleGenerate s o g).requests =
        ((scriptLines s.script).take (k + 1)).map (storyboardRequest ch)
    ∧ (handleGenerate s o g).state.storyboard.length = k + 1
    ∧ (∀ j, j < k →
        (handleGenerate s o g).state.storyboard[j]? =
          resultPanelOpt (g j) ((scriptLines s.script).getD j "") (o j))
    ∧ (handleGenerate s o g).state.storyboard[k]? = some (pendingPanel k) := by
  have hpre2 : ∀ i, i < k → (o (0 + i)).isThrow = false := by
    intro i hi
    simpa using hpre i hi
  have hthrow2 : o (0 + k) = .throwErr msg := by
    simpa using hthrow
  obtain ⟨herr, hreq, hlen, hidx, hlast⟩ :=
    runLoop_throwAt ch o g msg k (scriptLines s.script) 0 [] hk hpre2 hthrow2
  simp only [List.length_nil, Nat.zero_add] at herr hreq hlen hidx hlast
  rw [handleGenerate_run s o g ch h1 h2]
  dsimp only
  exact ⟨herr, rfl, hreq, hlen, hidx, hlast⟩

/-- C3 witness: concrete run of `storyboard_transport_abort` at `k = 1`
for script `"x\ny"`: line 0's panel is finalized, line 1's placeholder
remains, two requests were issued, the error banner shows the thrown
message and the busy flag is cleared. -/
theorem storyboard_transport_abort_witness :
    (jsTrim ("x\ny" : String) ≠ ""
      ∧ 1 < (scriptLines "x\ny").length
      ∧ (fun i => if i = 0 then AdapterResult.image "image/png" "img0"
          else AdapterResult.throwErr "net down") 1 = AdapterResult.throwErr "net down")
    ∧ ((handleGenerate
          { init with character := some ⟨"c64", "image/png", none⟩, script := "x\ny" }
          (fun i => if i = 0 then AdapterResult.image "image/png" "img0"
            else AdapterResult.throwErr "net down")
          (fun n => "id-" ++ toString n)).state.error = some "net down"
      ∧ (handleGenerate
          { init with character := some ⟨"c64", "image/png", none⟩, script := "x\ny" }
          (fun i => if i = 0 then AdapterResult.image "image/png" "img0"
            else AdapterResult.throwErr "net down")
          (fun n => "id-" ++ toString n)).state.isLoading = false
      ∧ (handleGenerate
          { init with character := some ⟨"c64", "image/png", none⟩, script := "x\ny" }
          (fun i => if i = 0 then AdapterResult.image "image/png" "img0"
            else AdapterResult.throwErr "net down")
          (fun n => "id-" ++ toString n)).requests =
            ((scriptLines "x\ny").take 2).map
              (storyboardRequest ⟨"c64", "image/png", none⟩)
      ∧ (handleGenerate
          { init with character := some ⟨"c64", "image/png", none⟩, script := "x\ny" }
          (fun i => if i = 0 then AdapterResult.image "image/png" "img0"
            else AdapterResult.throwErr "net down")
          (fun n => "id-" ++ toString n)).state.storyboard.length = 2
      ∧ (∀ j, j < 1 →
          (handleGenerate
            { init with character := some ⟨"c64", "image/png", none⟩, script := "x\ny" }
            (fun i => if i = 0 then AdapterResult.image "image/png" "img0"
              else AdapterResult.throwErr "net down")
            (fun n => "id-" ++ toString n)).state.storyboard[j]? =
              resultPanelOpt ("id-" ++ toString j) ((scriptLines "x\ny").getD j "")
                ((fun i => if i = 0 then AdapterResult.image "image/png" "img0"
                  else AdapterResult.throwErr "net down") j))
      ∧ (handleGenerate
          { init with character := some ⟨"c64", "image/png", none⟩, script := "x\ny" }
          (fun i => if i = 0 then AdapterResult.image "image/png" "img0"
            else AdapterResult.throwErr "net down")
          (fun n => "id-" ++ toString n)).state.storyboard[1]? =
            some (pendingPanel 1)) :=
  ⟨⟨by decide, by decide, by decide⟩,
    storyboard_transport_abort _ _ _ _ 1 "net down" rfl (by decide) (by decide)
      (by decide) (by decide)⟩

/-- C5 counterexample: for the line `"A | B | C"` the code's caption is
`"B"`, not the entire trimmed text after the first `|` (`"B | C"`): JS
`split('|')` splits on every bar and the destructuring keeps only the
second segment. -/
theorem caption_split_counterexample :
    parseLine "A | B | C" = ("A", some "B") ∧ ("B" : String) ≠ "B | C" := by
  decide

/-- C5 (amended): a script line is split on EVERY `|` character: the scene
description is the trimmed first segment; the caption is the trimmed
second segment when one exists and trims nonempty (a line with no `|`
yields no caption, and so does an empty second segment); any segments
after the second are discarded. -/
theorem line_split_first_two_segments (line : String) :
    (∀ s, jsSplit '|' line = [s] → parseLine line = (jsTrim s, none))
    ∧ (∀ s t rest, jsSplit '|' line = s :: t :: rest →
        parseLine line =
          (jsTrim s, if jsTrim t = "" then none else some (jsTrim t))) := by
  constructor
  · intro s hs
    simp [parseLine, hs]
  · intro s t rest hs
    simp [parseLine, hs]

/-- C5 witness: `"A | B | C"` splits into three segments; the parse keeps
the trimmed first as the scene and the trimmed second as the caption. -/
theorem line_split_first_two_segments_witness :
    jsSplit '|' "A | B | C" = ["A ", " B ", " C"]
    ∧ parseLine "A | B | C" =
        (jsTrim "A ", if jsTrim " B " = "" then none else some (jsTrim " B ")) :=
  ⟨by decide, (line_split_first_two_segments "A | B | C").2 "A " " B " [" C"] (by decide)⟩

/-- C6: every operation that replaces or clears the character reference
leaves the storyboard panel list empty afterwards — uploading a character
image, successfully generating a character from a non-blank description,
and clearing the character, which additionally wipes the description
text. -/
theorem character_change_clears_panels :
    (∀ (image : UploadedImage) (s : State),
        (handleImageUpload image s).storyboard = [])
    ∧ (∀ (s : State) (m d : String), jsTrim s.characterDescription ≠ "" →
        ((handleCreateCharacter s (.image m d)).1.storyboard = []
          ∧ (handleCreateCharacter s (.image m d)).1.character = some ⟨d, m, none⟩))
    ∧ (∀ s : State,
        (handleClearCharacter s).storyboard = []
          ∧ (handleClearCharacter s).characterDescription = "") := by
  refine ⟨fun image s => rfl, fun s m d h => ?_, fun s => ⟨rfl, rfl⟩⟩
  constructor <;> simp [handleCreateCharacter, h]

/-- C6 witness: successfully generating a character from a non-blank
description clears a previously non-empty panel list and installs the
generated image (with no file handle) as the character. -/
theorem character_change_clears_panels_witness :
    (jsTrim ("a brave knight" : String) ≠ "")
    ∧ ((handleCreateCharacter
          { init with
            characterDescription := "a brave knight",
            storyboard := [⟨"p0", "s", "x"⟩] }
          (.image "image/png" "gen")).1.storyboard = []
        ∧ (handleCreateCharacter
          { init with
            characterDescription := "a brave knight",
            storyboard := [⟨"p0", "s", "x"⟩] }
          (.image "image/png" "gen")).1.character = some ⟨"gen", "image/png", none⟩) :=
  ⟨by decide, character_change_clears_panels.2.1 _ "image/png" "gen" (by decide)⟩

/-- C8 counterexample: the whitespace-only script `"  \n \n"` has every
line blank after trimming, yet starting a run with a character set does
not report a zero-panel success — it sets the script validation error (and
issues no call). -/
theorem blank_script_counterexample :
    (∀ l ∈ jsSplit '\n' ("  \n \n" : String), jsTrim l = "")
    ∧ (handleGenerate
        { init with character := some ⟨"c64", "image/png", none⟩, script := "  \n \n" }
        (fun _ => AdapterResult.image "image/png" "xyz")
        (fun n => "id-" ++ toString n)).state.error =
          some "Please enter a script for the storyboard."
    ∧ (handleGenerate
        { init with character := some ⟨"c64", "image/png", none⟩, script := "  \n \n" }
        (fun _ => AdapterResult.image "image/png" "xyz")
        (fun n => "id-" ++ toString n)).requests = [] := by
  decide

/-- C8 (amended): a script whose lines are all blank after trimming is
whitespace-only, so the run is rejected up front by the blank-script
validation: no adapter call is made, nothing is published, the panel list
and the rest of the state are untouched, and the validation error is set —
the pipeline does not report a successful zero-panel completion. -/
theorem blank_script_rejected (s : State) (o : Nat → AdapterResult)
    (g : Nat → String) (ch : CharacterReference)
    (h1 : s.character = some ch)
    (hblank : ∀ l ∈ jsSplit '\n' s.script, jsTrim l = "") :
    handleGenerate s o g =
      ⟨[], [], { s with error := some "Please enter a script for the storyboard." }⟩ := by
  have h2 : jsTrim s.script = "" := jsTrim_eq_empty_of_lines_blank s.script hblank
  simp [handleGenerate, h1, h2]

/-- C8 witness: the all-blank script `"  \n \n"` is rejected with the
validation error and no calls. -/
theorem blank_script_rejected_witness :
    (∀ l ∈ jsSplit '\n' ("  \n \n" : String), jsTrim l = "")
    ∧ handleGenerate
        { init with character := some ⟨"c64", "image/png", none⟩, script := "  \n \n" }
        (fun _ => AdapterResult.noImage) (fun n => "id-" ++ toString n) =
      ⟨[], [],
        { { init with character := some ⟨"c64", "image/png", none⟩, script := "  \n \n" }
            with error := some "Please enter a script for the storyboard." }⟩ :=
  ⟨by decide, blank_script_rejected _ _ _ _ rfl (by decide)⟩

/-- C10: a rendered panel's display state is decided by sentinel values in
its own data fields — label `"loading"` means pending (checked first),
otherwise image value `"error"` means failed, otherwise completed.
Consequently, the successfully completed panel for a script line whose
text is exactly `"loading"` carries the label `"loading"` and is
classified as pending, exactly like an in-flight placeholder, even though
its `src` holds the generated image. -/
theorem panel_status_sentinels :
    (∀ p : StoryboardPanel, panelStatus p = .pending ↔ p.prompt = "loading")
    ∧ (∀ p : StoryboardPanel,
        panelStatus p = .failed ↔ (p.prompt ≠ "loading" ∧ p.src = "error"))
    ∧ ((handleGenerate
          { init with character := some ⟨"c64", "image/png", none⟩, script := "loading" }
          (fun _ => AdapterResult.image "image/png" "okdata")
          (fun n => "id-" ++ toString n)).state.storyboard.map StoryboardPanel.src =
        ["data:image/png;base64,okdata"]
      ∧ (handleGenerate
          { init with character := some ⟨"c64", "image/png", none⟩, script := "loading" }
          (fun _ => AdapterResult.image "image/png" "okdata")
          (fun n => "id-" ++ toString n)).state.storyboard.map panelStatus =
            [PanelStatus.pending]
      ∧ panelStatus (pendingPanel 0) = PanelStatus.pending) := by
  refine ⟨?_, ?_, by decide⟩
  · intro p
    by_cases h : p.prompt = "loading"
    · simp [panelStatus, h]
    · by_cases h2 : p.src = "error" <;> simp [panelStatus, h, h2]
  · intro p
    by_cases h : p.prompt = "loading"
    · simp [panelStatus, h]
    · by_cases h2 : p.src = "error" <;> simp [panelStatus, h, h2]

end Anieme.Storyboard

namespace Anieme

/-- C7: every submission with blank or whitespace-only required text — a
single-image prompt, a character description, or a storyboard script — and
every storyboard submission without an active character reference, makes
no adapter call, sets a validation error message, and leaves all other
state unchanged. -/
theorem validation_rejections :
    (∀ (s : ImageStudio.State) (res : AdapterResult), jsTrim s.prompt = "" →
        ImageStudio.handleGenerate s res =
          ({ s with error := some "Please enter a prompt." }, []))
    ∧ (∀ (s : Storyboard.State) (res : AdapterResult),
        jsTrim s.characterDescription = "" →
          Storyboard.handleCreateCharacter s res =
            ({ s with error := some "Please describe the character you want to create." }, []))
    ∧ (∀ (s : Storyboard.State) (o : Nat → AdapterResult) (g : Nat → String),
        s.character = none →
          Storyboard.handleGenerate s o g =
            ⟨[], [], { s with error := some "Please upload or create a character reference image." }⟩)
    ∧ (∀ (s : Storyboard.State) (o : Nat → AdapterResult) (g : Nat → String)
        (ch : CharacterReference), s.character = some ch → jsTrim s.script = "" →
          Storyboard.handleGenerate s o g =
            ⟨[], [], { s with error := some "Please enter a script for the storyboard." }⟩) := by
  refine ⟨?_, ?_, ?_, ?_⟩
  · intro s res h
    simp [ImageStudio.handleGenerate, h]
  · intro s res h
    simp [Storyboard.handleCreateCharacter, h]
  · intro s o g h
    simp [Storyboard.handleGenerate, h]
  · intro s o g ch h1 h2
    simp [Storyboard.handleGenerate, h1, h2]

/-- C7 witness: concrete blank-prompt, blank-description, no-character and
blank-script submissions are each rejected exactly as
`validation_rejections` states. -/
theorem validation_rejections_witness :
    (jsTrim ("  " : String) = ""
      ∧ ImageStudio.handleGenerate { ImageStudio.init with prompt := "  " }
          AdapterResult.noImage =
        ({ { ImageStudio.init with prompt := "  " } with
            error := some "Please enter a prompt." }, []))
    ∧ (Storyboard.handleCreateCharacter
          { Storyboard.init with characterDescription := " " } AdapterResult.noImage =
        ({ { Storyboard.init with characterDescription := " " } with
            error := some "Please describe the character you want to create." }, []))
    ∧ (Storyboard.handleGenerate { Storyboard.init with script := "hello" }
          (fun _ => AdapterResult.noImage) (fun n => toString n) =
        ⟨[], [], { { Storyboard.init with script := "hello" } with
            error := some "Please upload or create a character reference image." }⟩)
    ∧ (Storyboard.handleGenerate
          { Storyboard.init with character := some ⟨"c", "image/png", none⟩, script := " " }
          (fun _ => AdapterResult.noImage) (fun n => toString n) =
        ⟨[], [],
          { { Storyboard.init with
                character := some ⟨"c", "image/png", none⟩,
                script := " " } with
              error := some "Please enter a script for the storyboard." }⟩) :=
  ⟨⟨by decide, validation_rejections.1 _ _ (by decide)⟩,
    validation_rejections.2.1 _ _ (by decide),
    validation_rejections.2.2.1 _ _ _ rfl,
    validation_rejections.2.2.2 _ _ _ _ rfl (by decide)⟩

/-- C9 counterexample: clearing the input image with an output image and
an error message present leaves both in place — `handleClearImage` only
nulls the input image, it does not reset output and error as the claim
states. -/
theorem clear_image_counterexample :
    (ImageStudio.handleClearImage
        { prompt := "p", inputImage := some ⟨⟨"image/png"⟩, "b64"⟩,
          outputImage := some "out", isLoading := false,
          error := some "oops" }).outputImage ≠ none
    ∧ (ImageStudio.handleClearImage
        { prompt := "p", inputImage := some ⟨⟨"image/png"⟩, "b64"⟩,
          outputImage := some "out", isLoading := false,
          error := some "oops" }).error ≠ none := by
  decide

/-- C9 (amended): uploading an input image resets the output image and the
error message and leaves the prompt unchanged; clearing the input image
only removes the input image — output image, error message and prompt are
all left unchanged. -/
theorem image_studio_upload_clear_frame (s : ImageStudio.State)
    (image : UploadedImage) :
    ((ImageStudio.handleImageUpload image s).inputImage = some image
      ∧ (ImageStudio.handleImageUpload image s).outputImage = none
      ∧ (ImageStudio.handleImageUpload image s).error = none
      ∧ (ImageStudio.handleImageUpload image s).prompt = s.prompt
      ∧ (ImageStudio.handleImageUpload image s).isLoading = s.isLoading)
    ∧ ((ImageStudio.handleClearImage s).inputImage = none
      ∧ (ImageStudio.handleClearImage s).outputImage = s.outputImage
      ∧ (ImageStudio.handleClearImage s).error = s.error
      ∧ (ImageStudio.handleClearImage s).prompt = s.prompt
      ∧ (ImageStudio.handleClearImage s).isLoading = s.isLoading) :=
  ⟨⟨rfl, rfl, rfl, rfl, rfl⟩, rfl, rfl, rfl, rfl, rfl⟩

/-- C9 witness: `image_studio_upload_clear_frame` at a concrete state and
image. -/
theorem image_studio_upload_clear_frame_witness :
    ((ImageStudio.handleImageUpload ⟨⟨"image/png"⟩, "b64"⟩
        { prompt := "p", inputImage := none, outputImage := some "out",
          isLoading := false, error := some "oops" }).inputImage =
          some ⟨⟨"image/png"⟩, "b64"⟩
      ∧ (ImageStudio.handleImageUpload ⟨⟨"image/png"⟩, "b64"⟩
        { prompt := "p", inputImage := none, outputImage := some "out",
          isLoading := false, error := some "oops" }).outputImage = none
      ∧ (ImageStudio.handleImageUpload ⟨⟨"image/png"⟩, "b64"⟩
        { prompt := "p", inputImage := none, outputImage := some "out",
          isLoading := false, error := some "oops" }).error = none
      ∧ (ImageStudio.handleImageUpload ⟨⟨"image/png"⟩, "b64"⟩
        { prompt := "p", inputImage := none, outputImage := some "out",
          isLoading := false, error := some "oops" }).prompt = "p"
      ∧ (ImageStudio.handleImageUpload ⟨⟨"image/png"⟩, "b64"⟩
        { prompt := "p", inputImage := none, outputImage := some "out",
          isLoading := false, error := some "oops" }).isLoading = false)
    ∧ ((ImageStudio.handleClearImage
        { prompt := "p", inputImage := none, outputImage := some "out",
          isLoading := false, error := some "oops" }).inputImage = none
      ∧ (ImageStudio.handleClearImage
        { prompt := "p", inputImage := none, outputImage := some "out",
          isLoading := false, error := some "oops" }).outputImage = some "out"
      ∧ (ImageStudio.handleClearImage
        { prompt := "p", inputImage := none, outputImage := some "out",
          isLoading := false, error := some "oops" }).error = some "oops"
      ∧ (ImageStudio.handleClearImage
        { prompt := "p", inputImage := none, outputImage := some "out",
          isLoading := false, error := some "oops" }).prompt = "p"
      ∧ (ImageStudio.handleClearImage
        { prompt := "p", inputImage := none, outputImage := some "out",
          isLoading := false, error := some "oops" }).isLoading = false) :=
  image_studio_upload_clear_frame
    { prompt := "p", inputImage := none, outputImage := some "out",
      isLoading := false, error := some "oops" } ⟨⟨"image/png"⟩, "b64"⟩

/-- C4 counterexample: an Image Studio state with an in-progress prompt is
not restored after switching to the storyboard workflow and back — the
component is re-mounted with its initial state instead. -/
theorem workflow_switch_counterexample :
    (App.setActiveTool App.Tool.imageStudio
      (App.setActiveTool App.Tool.storyboard
        { activeTool := App.Tool.imageStudio,
          imageStudio := some { ImageStudio.init with prompt := "draft scene" },
          storyboard := none })).imageStudio ≠
      some { ImageStudio.init with prompt := "draft scene" } := by
  decide

/-- C4 (amended): switching the active top-level workflow unmounts the one
being left, destroying its component state; switching back re-mounts it
with its initial state.  A workflow's in-progress text and results are NOT
preserved across a switch away and back. -/
theorem workflow_switch_resets (s : App.AppState) :
    (App.setActiveTool App.Tool.imageStudio
        (App.setActiveTool App.Tool.storyboard s)).imageStudio =
      some ImageStudio.init
    ∧ (App.setActiveTool App.Tool.storyboard
        (App.setActiveTool App.Tool.imageStudio s)).storyboard =
      some Storyboard.init
    ∧ (App.setActiveTool App.Tool.imageStudio
        (App.setActiveTool App.Tool.storyboard s)).activeTool =
      App.Tool.imageStudio := by
  refine ⟨?_, ?_, rfl⟩ <;> simp [App.setActiveTool, App.reconcile]

/-- C4 witness: `workflow_switch_resets` at a concrete state with an
in-progress prompt. -/
theorem workflow_switch_resets_witness :
    (App.setActiveTool App.Tool.imageStudio
        (App.setActiveTool App.Tool.storyboard
          { activeTool := App.Tool.imageStudio,
            imageStudio := some { ImageStudio.init with prompt := "draft scene" },
            storyboard := none })).imageStudio = some ImageStudio.init
    ∧ (App.setActiveTool App.Tool.storyboard
        (App.setActiveTool App.Tool.imageStudio
          { activeTool := App.Tool.imageStudio,
            imageStudio := some { ImageStudio.init with prompt := "draft scene" },
            storyboard := none })).storyboard = some Storyboard.init
    ∧ (App.setActiveTool App.Tool.imageStudio
        (App.setActiveTool App.Tool.storyboard
          { activeTool := App.Tool.imageStudio,
            imageStudio := some { ImageStudio.init with prompt := "draft scene" },
            storyboard := none })).activeTool = App.Tool.imageStudio :=
  workflow_switch_resets
    { activeTool := App.Tool.imageStudio,
      imageStudio := some { ImageStudio.init with prompt := "draft scene" },
      storyboard := none }

end Anieme
